import Mathlib

/-!
Shallow embedding of `src/hibernate.c` (the revision whose line numbers the
claims cite; `src/main.c` is a near-identical earlier revision of the same
program).  The program temporarily adapts the macOS power-management
preferences to force hibernation, sleeps, and restores the preferences.

External platform APIs (sysctl, IOKit power-management calls) are modelled by
an environment record of oracles; the preference store (custom preferences
plus active power profiles) is explicit state threaded through the functions.
Preference writes are all-or-nothing per call: a rejected write leaves the
store unchanged.  Every call to a preference-write API is also recorded in an
ordered trace, so that "a write was attempted" is distinguishable from "a
write took effect".
-/

/-- Feature keys occurring in per-power-source preference dictionaries.
`hibernateMode` is `kIOHibernateModeKey`, `deepSleepEnabled` is
`kIOPMDeepSleepEnabledKey` (standby), `wakeOnLAN` is `kIOPMWakeOnLANKey`;
`otherA`/`otherB` stand for the arbitrary further keys a real dictionary
holds. -/
inductive FeatureKey where
  | hibernateMode
  | deepSleepEnabled
  | wakeOnLAN
  | otherA
  | otherB
deriving DecidableEq

/-- Power-source types (the values of `IOPSGetProvidingPowerSourceType`,
e.g. AC power, battery power, UPS power). -/
inductive PSType where
  | ac
  | battery
  | ups
deriving DecidableEq

/-- A per-power-source preference dictionary: feature key to numeric value
(`CFNumber` modelled as `Int`), absent keys map to `none`. -/
abbrev PerSourcePrefs : Type := FeatureKey → Option Int

/-- A preferences dictionary keyed by power source
(shape of `IOPMCopyActivePMPreferences` / `IOPMCopyCustomPMPreferences`). -/
abbrev ActivePrefs : Type := PSType → Option PerSourcePrefs

/-- The active power-profile selection: power source to profile number
(shape of `IOPMCopyActivePowerProfiles`). -/
abbrev Profiles : Type := PSType → Option Int

/- Numeric constants from the source. -/

/-- Value of `kHibernateMode = kIOHibernateModeOn` (hibernate mode "on"). -/
abbrev kHibernateMode : Int := 1
/-- Value of `kStandby = 0` (standby "off"). -/
abbrev kStandby : Int := 0
/-- Value of `kWakeOnLAN = 0` (wake on LAN "off"). -/
abbrev kWakeOnLAN : Int := 0
/-- Value of `kIOPMCustomPowerProfile` (the custom profile identifier). -/
abbrev kIOPMCustomPowerProfile : Int := -1

abbrev kCheckOSReleaseSupported : Nat := 0
abbrev kCheckOSReleaseUnsupported : Nat := 1
abbrev kCheckOSReleaseError : Nat := 2

abbrev kPMAdaptPreferencesSuccess : Nat := 0
abbrev kPMAdaptPreferencesErrorActiveProfiles : Nat := 1
abbrev kPMAdaptPreferencesErrorCustomPreferences : Nat := 2
abbrev kPMAdaptPreferencesErrorPowerSource : Nat := 3
abbrev kPMAdaptPreferencesErrorActivePreferences : Nat := 4

abbrev kPMRestorePreferencesSuccess : Nat := 0
abbrev kPMRestorePreferencesErrorCustomPreferences : Nat := 1
abbrev kPMRestorePreferencesErrorActiveProfiles : Nat := 2

abbrev kMainSuccess : Nat := 0
abbrev kMainErrorOSRelease : Nat := 1
abbrev kMainErrorIOPMrootDomain : Nat := 2
abbrev kMainErrorPMAdaptPreferences : Nat := 3
abbrev kMainErrorPMRestorePreferences : Nat := 4

/-! ## CheckOSRelease -/

/-- Environment of `CheckOSRelease`: outcomes of the two `sysctl`
calls (size probe and read), the release string the read delivers, and the
indeterminate value sitting in the uninitialised stack slot `release`
(which `sscanf` leaves untouched when matching fails). -/
structure OSEnv where
  sizeProbeOk : Bool
  readOk : Bool
  releaseChars : List Char
  uninitRelease : Int

/-- Leading decimal-digit run converted to a number; `none` when the first
character is not a digit (part of `sscanf` `%d` semantics: at least one digit
must match). -/
def parseLeadingNat (cs : List Char) : Option Nat :=
  let ds := cs.takeWhile Char.isDigit
  if ds.isEmpty then none
  else some (ds.foldl (fun a c => a * 10 + (c.toNat - 48)) 0)

/-- The call `sscanf(buffer, "%d.%*d.%*d", &release)` restricted to its observable
effect on `release`: skip leading whitespace, accept an optional sign, then
require at least one digit; `none` means the conversion failed and `release`
was not assigned. -/
def sscanfLeadingInt (cs : List Char) : Option Int :=
  let cs1 := cs.dropWhile Char.isWhitespace
  match cs1 with
  | '-' :: rest => (parseLeadingNat rest).map (fun n => -(n : Int))
  | '+' :: rest => (parseLeadingNat rest).map (fun n => (n : Int))
  | _ => (parseLeadingNat cs1).map (fun n => (n : Int))

/-- Function `CheckOSRelease` from `src/hibernate.c:93`: probe the length of
`KERN_OSRELEASE`, read it, parse the major release with `sscanf` (the parse
result is never checked), and compare against the threshold 10. -/
def CheckOSRelease (env : OSEnv) : Nat :=
  if !env.sizeProbeOk then kCheckOSReleaseError
  else if !env.readOk then kCheckOSReleaseError
  else
    let release := (sscanfLeadingInt env.releaseChars).getD env.uninitRelease
    if release < 10 then kCheckOSReleaseUnsupported
    else kCheckOSReleaseSupported

/-! ## Preference mutation and restoration -/

/-- The snapshot `PMAdaptPreferences` hands to the caller through its two
out-parameters: the original active power profiles and the original custom
preferences. -/
structure Snapshot where
  activePMProfiles : Profiles
  customPMPreferences : ActivePrefs

/-- The platform preference store: active power profiles and custom
power-management preferences. -/
structure PMState where
  activeProfiles : Profiles
  customPrefs : ActivePrefs

/-- One call to a preference-write API, with its argument. -/
inductive WriteOp where
  | setCustom (d : ActivePrefs)
  | setProfiles (p : Profiles)

/-- Environment of the power-management functions: which copy/read calls
succeed, the providing power source, the active preferences the OS reports,
feature availability per power source, and acceptance of the two write
calls.  -/
structure Env where
  copyProfilesOk : Bool
  copyCustomOk : Bool
  psInfoOk : Bool
  providingSource : Option PSType
  activePMPreferences : Option ActivePrefs
  featureAvailable : FeatureKey → PSType → Bool
  setCustomOk : ActivePrefs → Bool
  setProfilesOk : Profiles → Bool

/-- One guarded feature override of `src/hibernate.c:206-240`: set `k` to
`v` in the dictionary when `IOPMFeatureIsAvailable` reported true, otherwise
leave the dictionary alone. -/
def applyOverride (cond : Bool) (k : FeatureKey) (v : Int)
    (d : PerSourcePrefs) : PerSourcePrefs :=
  if cond then Function.update d k (some v) else d

/-- The three feature overrides of `src/hibernate.c:206-240`, applied in
source order (hibernate mode, then standby, then wake on LAN) to the mutable
per-power-source dictionary. -/
def mutatePS (avail : FeatureKey → PSType → Bool) (psType : PSType)
    (d : PerSourcePrefs) : PerSourcePrefs :=
  applyOverride (avail FeatureKey.wakeOnLAN psType)
    FeatureKey.wakeOnLAN kWakeOnLAN
    (applyOverride (avail FeatureKey.deepSleepEnabled psType)
      FeatureKey.deepSleepEnabled kStandby
      (applyOverride (avail FeatureKey.hibernateMode psType)
        FeatureKey.hibernateMode kHibernateMode d))

/-- Function `PMAdaptPreferences` from `src/hibernate.c:130`.  Returns the result
code, the snapshot delivered through the out-parameters on success (`none`
on every error path: the caller only consumes the out-parameters when the
code is success), the resulting preference store, and the trace of
preference-write calls made. -/
def PMAdaptPreferences (env : Env) (st : PMState) :
    Nat × Option Snapshot × PMState × List WriteOp :=
  if !env.copyProfilesOk then
    (kPMAdaptPreferencesErrorActiveProfiles, none, st, [])
  else
    let activePMProfiles := st.activeProfiles
    if !env.copyCustomOk then
      (kPMAdaptPreferencesErrorCustomPreferences, none, st, [])
    else
      let customPMPreferences := st.customPrefs
      if !env.psInfoOk then
        (kPMAdaptPreferencesErrorPowerSource, none, st, [])
      else
        match env.providingSource with
        | none => (kPMAdaptPreferencesErrorPowerSource, none, st, [])
        | some psType =>
          match env.activePMPreferences with
          | none => (kPMAdaptPreferencesErrorActivePreferences, none, st, [])
          | some activePMPreferences =>
            match activePMPreferences psType with
            | none => (kPMAdaptPreferencesErrorActivePreferences, none, st, [])
            | some activePMPreferencesPS =>
              let mcActivePMPreferencesPS :=
                mutatePS env.featureAvailable psType activePMPreferencesPS
              let mcActivePMPreferences :=
                Function.update activePMPreferences psType
                  (some mcActivePMPreferencesPS)
              let mcPMActiveProfiles :=
                Function.update activePMProfiles psType
                  (some kIOPMCustomPowerProfile)
              if env.setCustomOk mcActivePMPreferences then
                if env.setProfilesOk mcPMActiveProfiles then
                  (kPMAdaptPreferencesSuccess,
                   some ⟨activePMProfiles, customPMPreferences⟩,
                   ⟨mcPMActiveProfiles, mcActivePMPreferences⟩,
                   [WriteOp.setCustom mcActivePMPreferences,
                    WriteOp.setProfiles mcPMActiveProfiles])
                else
                  (kPMAdaptPreferencesErrorActiveProfiles, none,
                   ⟨st.activeProfiles, mcActivePMPreferences⟩,
                   [WriteOp.setCustom mcActivePMPreferences,
                    WriteOp.setProfiles mcPMActiveProfiles])
              else
                (kPMAdaptPreferencesErrorCustomPreferences, none, st,
                 [WriteOp.setCustom mcActivePMPreferences])

/-- Function `PMRestorePreferences` from `src/hibernate.c:286`: write the custom
preferences back first, then the active profiles, short-circuiting on the
first rejected write. -/
def PMRestorePreferences (env : Env) (st : PMState) (snap : Snapshot) :
    Nat × PMState × List WriteOp :=
  if env.setCustomOk snap.customPMPreferences then
    if env.setProfilesOk snap.activePMProfiles then
      (kPMRestorePreferencesSuccess,
       ⟨snap.activePMProfiles, snap.customPMPreferences⟩,
       [WriteOp.setCustom snap.customPMPreferences,
        WriteOp.setProfiles snap.activePMProfiles])
    else
      (kPMRestorePreferencesErrorActiveProfiles,
       ⟨st.activeProfiles, snap.customPMPreferences⟩,
       [WriteOp.setCustom snap.customPMPreferences,
        WriteOp.setProfiles snap.activePMProfiles])
  else
    (kPMRestorePreferencesErrorCustomPreferences, st,
     [WriteOp.setCustom snap.customPMPreferences])

/-! ## Power notification callback -/

/-- Value of `kIOMessageSystemWillSleep`. -/
abbrev kIOMessageSystemWillSleep : Nat := 0xE0000280
/-- Value of `kIOMessageSystemHasPoweredOn`. -/
abbrev kIOMessageSystemHasPoweredOn : Nat := 0xE0000300

/-- Observable orchestrator state the callback touches: whether the run loop
is still running, and the acknowledgement tokens passed to
`IOAllowPowerChange` on the session, in order. -/
structure CallbackState where
  loopRunning : Bool
  acks : List Int

/-- Function `IOPowerNotificationCallback` from `src/hibernate.c:304`: on
`kIOMessageSystemHasPoweredOn` stop the run loop, on
`kIOMessageSystemWillSleep` acknowledge the power change with the supplied
token, otherwise do nothing. -/
def IOPowerNotificationCallback (type : Nat) (argument : Int)
    (cs : CallbackState) : CallbackState :=
  if type = kIOMessageSystemHasPoweredOn then
    { cs with loopRunning := false }
  else if type = kIOMessageSystemWillSleep then
    { cs with acks := cs.acks ++ [argument] }
  else cs

/-! ## main

`main` from `src/hibernate.c:355`.  The run-loop phase between notification
registration and preference restoration (observer-initiated sleep request,
`CFRunLoopRun`, the `sleep` delays, and the run-loop/port teardown) neither
touches the preference store nor influences the exit code, so it is elided
between those two steps; the callback it drives is modelled above.
-/

/-- The `perror` line `main` emits for a non-success `CheckOSRelease`
code (`src/hibernate.c:361-368`). -/
def osReleaseErrMsg (rc : Nat) : List String :=
  if rc = kCheckOSReleaseUnsupported then
    ["hibernate: operating system release unsupported"]
  else if rc = kCheckOSReleaseError then
    ["hibernate: getting operating system resease failed"]
  else []

/-- The `perror` line `main` emits for a non-success `PMAdaptPreferences`
code (`src/hibernate.c:377-394`). -/
def adaptErrMsg (rc : Nat) : List String :=
  if rc = kPMAdaptPreferencesErrorActiveProfiles then
    ["hibernate: setting active power management profiles failed"]
  else if rc = kPMAdaptPreferencesErrorCustomPreferences then
    ["hiberate: setting custom power management preferences failed"]
  else if rc = kPMAdaptPreferencesErrorPowerSource then
    ["hibernate: getting currently active power source type failed"]
  else if rc = kPMAdaptPreferencesErrorActivePreferences then
    ["hibernate: getting active power management preferences failed"]
  else []

/-- The `perror` line `main` emits for a non-success `PMRestorePreferences`
code (`src/hibernate.c:455-464`). -/
def restoreErrMsg (rc : Nat) : List String :=
  if rc = kPMRestorePreferencesErrorCustomPreferences then
    ["hibernate: restoring custom power management preferences failed"]
  else if rc = kPMRestorePreferencesErrorActiveProfiles then
    ["hibernate: restoring active power management profiles failed"]
  else []

/-- Environment of a whole run: the `CheckOSRelease` environment, the
power-management environment, and whether `IORegisterForSystemPower`
returns a non-null session. -/
structure MainEnv where
  os : OSEnv
  pm : Env
  registerOk : Bool

/-- Observable outcome of a run of `main`: the exit status, the diagnostic
lines written to the error stream, the final preference store, whether the
snapshot dictionaries were released by `main`, and the trace of
preference-write calls. -/
structure MainResult where
  exitCode : Nat
  stderr : List String
  finalState : PMState
  snapshotReleased : Bool
  trace : List WriteOp

/-- Function `main` from `src/hibernate.c:355`, as a function of the run environment
and the initial preference store. -/
def mainRun (env : MainEnv) (st : PMState) : MainResult :=
  let rc0 := CheckOSRelease env.os
  if rc0 ≠ kCheckOSReleaseSupported then
    { exitCode := kMainErrorOSRelease, stderr := osReleaseErrMsg rc0,
      finalState := st, snapshotReleased := false, trace := [] }
  else
    match PMAdaptPreferences env.pm st with
    | (rcA, osnap, st1, tr1) =>
      if rcA ≠ kPMAdaptPreferencesSuccess then
        { exitCode := kMainErrorPMAdaptPreferences, stderr := adaptErrMsg rcA,
          finalState := st1, snapshotReleased := false, trace := tr1 }
      else
        match osnap with
        | none =>
          -- Unreachable: a success code always comes with a snapshot
          -- (`PMAdaptPreferences_success_has_snapshot` below).
          { exitCode := kMainErrorPMAdaptPreferences, stderr := [],
            finalState := st1, snapshotReleased := false, trace := tr1 }
        | some snap =>
          if !env.registerOk then
            { exitCode := kMainErrorIOPMrootDomain,
              stderr := ["hibernate: connecting to the IOPMrootDomain failed"],
              finalState := st1, snapshotReleased := true, trace := tr1 }
          else
            match PMRestorePreferences env.pm st1 snap with
            | (rcR, st2, tr2) =>
              if rcR ≠ kPMRestorePreferencesSuccess then
                { exitCode := kMainErrorPMRestorePreferences,
                  stderr := restoreErrMsg rcR, finalState := st2,
                  snapshotReleased := true, trace := tr1 ++ tr2 }
              else
                { exitCode := kMainSuccess, stderr := [], finalState := st2,
                  snapshotReleased := true, trace := tr1 ++ tr2 }

/-! ## Concrete fixtures used by the witness theorems -/

/-- A concrete profile selection. -/
def wProfiles : Profiles := fun _ => some 2

/-- A concrete per-power-source preference dictionary. -/
def wPS0 : PerSourcePrefs := fun _ => some 5

/-- A concrete preferences dictionary. -/
def wAP : ActivePrefs := fun _ => some wPS0

/-- A concrete initial preference store. -/
def wSt : PMState := ⟨wProfiles, wAP⟩

/-- The snapshot `PMAdaptPreferences` returns on `wSt`. -/
def wSnap : Snapshot := ⟨wProfiles, wAP⟩

/-- An environment in which every platform call succeeds and every feature
is available. -/
def wEnvOk : Env where
  copyProfilesOk := true
  copyCustomOk := true
  psInfoOk := true
  providingSource := some PSType.ac
  activePMPreferences := some wAP
  featureAvailable := fun _ _ => true
  setCustomOk := fun _ => true
  setProfilesOk := fun _ => true

/-! ## Helper lemmas -/


/-- Inversion of the success path of `PMAdaptPreferences`: a success result
pins down every environment query, the returned snapshot (the original
store), the resulting store, and the write trace. -/
theorem adapt_success_inv (env : Env) (st : PMState) (snap : Snapshot)
    (st1 : PMState) (tr1 : List WriteOp)
    (hA : PMAdaptPreferences env st =
      (kPMAdaptPreferencesSuccess, some snap, st1, tr1)) :
    ∃ psType ap d,
      env.copyProfilesOk = true ∧ env.copyCustomOk = true ∧
      env.psInfoOk = true ∧
      env.providingSource = some psType ∧
      env.activePMPreferences = some ap ∧
      ap psType = some d ∧
      snap = ⟨st.activeProfiles, st.customPrefs⟩ ∧
      st1 = ⟨Function.update st.activeProfiles psType
               (some kIOPMCustomPowerProfile),
             Function.update ap psType
               (some (mutatePS env.featureAvailable psType d))⟩ ∧
      tr1 = [WriteOp.setCustom (Function.update ap psType
               (some (mutatePS env.featureAvailable psType d))),
             WriteOp.setProfiles (Function.update st.activeProfiles psType
               (some kIOPMCustomPowerProfile))] := by
  unfold PMAdaptPreferences at hA
  split at hA <;> try simp_all
  split at hA <;> try simp_all
  split at hA <;> try simp_all
  split at hA <;> try simp_all
  split at hA <;> try simp_all
  split at hA <;> try simp_all
  split at hA <;> try simp_all
  split at hA <;> try simp_all

/-! ## C1: round-trip law -/

/-- C1: whenever `PMAdaptPreferences` succeeds on an initial configuration
and returns its snapshot (the original active profiles and custom
preferences), a successful `PMRestorePreferences` on exactly that snapshot
leaves the preference store identical to the initial one. -/
theorem adapt_restore_roundtrip (env : Env) (st : PMState) (snap : Snapshot)
    (st1 : PMState) (tr1 : List WriteOp) (st2 : PMState) (tr2 : List WriteOp)
    (hA : PMAdaptPreferences env st =
      (kPMAdaptPreferencesSuccess, some snap, st1, tr1))
    (hR : PMRestorePreferences env st1 snap =
      (kPMRestorePreferencesSuccess, st2, tr2)) :
    st2 = st := by
  obtain ⟨psType, ap, d, -, -, -, -, -, -, hsnap, -, -⟩ :=
    adapt_success_inv env st snap st1 tr1 hA
  subst hsnap
  unfold PMRestorePreferences at hR
  split at hR <;> try simp_all
  split at hR <;> try simp_all
  obtain ⟨hst2, -⟩ := hR
  subst hst2
  rfl

/-- Witness for C1: the round trip evaluated on the concrete fixture. -/
theorem adapt_restore_roundtrip_witness :
    (PMRestorePreferences wEnvOk (PMAdaptPreferences wEnvOk wSt).2.2.1
      wSnap).2.1 = wSt :=
  adapt_restore_roundtrip wEnvOk wSt wSnap
    (PMAdaptPreferences wEnvOk wSt).2.2.1
    (PMAdaptPreferences wEnvOk wSt).2.2.2
    (PMRestorePreferences wEnvOk (PMAdaptPreferences wEnvOk wSt).2.2.1
      wSnap).2.1
    (PMRestorePreferences wEnvOk (PMAdaptPreferences wEnvOk wSt).2.2.1
      wSnap).2.2
    rfl rfl

/-! ## C2 and C10: CheckOSRelease -/

/-- An environment whose release string is "10.8.0" and whose sysctl calls
succeed. -/
def wOSEnv10 : OSEnv := ⟨true, true, ['1', '0', '.', '8', '.', '0'], 0⟩

/-- An environment whose release string has no leading decimal integer; the
uninitialised stack value is 77. -/
def wOSEnvGarbage : OSEnv := ⟨true, true, ['D', 'a', 'r', 'w', 'i', 'n'], 77⟩

/-- C2: when the release string parses to major release `r`, `CheckOSRelease`
returns Supported for `r ≥ 10` and Unsupported for `r < 10`; a failure of
either sysctl call yields Error; and the three outcome codes are mutually
exclusive and exhaustive. -/
theorem checkOSRelease_classification (env : OSEnv) :
    ((env.sizeProbeOk = false ∨ env.readOk = false) →
      CheckOSRelease env = kCheckOSReleaseError) ∧
    (env.sizeProbeOk = true → env.readOk = true →
      ∀ r : Int, sscanfLeadingInt env.releaseChars = some r →
        ((10 ≤ r → CheckOSRelease env = kCheckOSReleaseSupported) ∧
         (r < 10 → CheckOSRelease env = kCheckOSReleaseUnsupported))) ∧
    (CheckOSRelease env = kCheckOSReleaseSupported ∨
     CheckOSRelease env = kCheckOSReleaseUnsupported ∨
     CheckOSRelease env = kCheckOSReleaseError) ∧
    (kCheckOSReleaseSupported ≠ kCheckOSReleaseUnsupported ∧
     kCheckOSReleaseSupported ≠ kCheckOSReleaseError ∧
     kCheckOSReleaseUnsupported ≠ kCheckOSReleaseError) := by
  unfold CheckOSRelease
  refine ⟨?_, ?_, ?_, by decide⟩
  · rintro (h | h) <;> cases hs : env.sizeProbeOk <;> simp_all
  · intro h1 h2 r hr
    simp only [h1, h2, hr, Bool.not_true, Bool.false_eq_true, if_false,
      Option.getD_some]
    refine ⟨fun h => ?_, fun h => ?_⟩
    · rw [if_neg (by omega)]
    · rw [if_pos h]
  · cases hs : env.sizeProbeOk <;> cases hr : env.readOk <;> simp_all <;>
      omega

/-- Witness for C2: on release string "10.8.0" the function returns
Supported. -/
theorem checkOSRelease_classification_witness :
    CheckOSRelease wOSEnv10 = kCheckOSReleaseSupported :=
  ((checkOSRelease_classification wOSEnv10).2.1 rfl rfl 10 (by decide)).1
    (by decide)

/-- C10: `CheckOSRelease` returns Error only when a sysctl call fails; when
both succeed the `sscanf` result is never validated, and the outcome is
Supported or Unsupported as decided by the parsed value or, when the string
has no leading decimal integer, by the indeterminate initial value of the
`release` variable. -/
theorem checkOSRelease_unchecked_parse (env : OSEnv) :
    (CheckOSRelease env = kCheckOSReleaseError →
      env.sizeProbeOk = false ∨ env.readOk = false) ∧
    (env.sizeProbeOk = true → env.readOk = true →
      CheckOSRelease env ≠ kCheckOSReleaseError ∧
      CheckOSRelease env =
        if (sscanfLeadingInt env.releaseChars).getD env.uninitRelease < 10
        then kCheckOSReleaseUnsupported
        else kCheckOSReleaseSupported) := by
  unfold CheckOSRelease
  constructor
  · intro h
    cases hs : env.sizeProbeOk <;> cases hr : env.readOk <;> simp_all <;>
      split at h <;> simp_all
  · intro h1 h2
    simp only [h1, h2, Bool.not_true, Bool.false_eq_true, if_false]
    constructor
    · split <;> simp
    · trivial

/-- Witness for C10: on the non-numeric release string "Darwin" with
indeterminate value 77, the function is decided by 77 (yielding Supported)
and does not report Error. -/
theorem checkOSRelease_unchecked_parse_witness :
    CheckOSRelease wOSEnvGarbage ≠ kCheckOSReleaseError ∧
    CheckOSRelease wOSEnvGarbage =
      if (sscanfLeadingInt wOSEnvGarbage.releaseChars).getD
           wOSEnvGarbage.uninitRelease < 10
      then kCheckOSReleaseUnsupported
      else kCheckOSReleaseSupported :=
  (checkOSRelease_unchecked_parse wOSEnvGarbage).2 rfl rfl

/-! ## mutatePS lemmas -/

/-- An override with a true guard sets its own key. -/
theorem applyOverride_self (cond : Bool) (k : FeatureKey) (v : Int)
    (d : PerSourcePrefs) (h : cond = true) :
    applyOverride cond k v d k = some v := by
  simp [applyOverride, h]

/-- An override leaves every other key alone. -/
theorem applyOverride_other (cond : Bool) (k : FeatureKey) (v : Int)
    (d : PerSourcePrefs) (k' : FeatureKey) (h : k' ≠ k) :
    applyOverride cond k v d k' = d k' := by
  cases cond <;> simp [applyOverride, Function.update_noteq h]

/-- An override with a false guard is the identity. -/
theorem applyOverride_skip (cond : Bool) (k : FeatureKey) (v : Int)
    (d : PerSourcePrefs) (h : cond = false) :
    applyOverride cond k v d = d := by
  simp [applyOverride, h]

/-- When hibernate mode is available, the mutation sets it to
`kHibernateMode`. -/
theorem mutatePS_hibernate (avail : FeatureKey → PSType → Bool)
    (psType : PSType) (d : PerSourcePrefs)
    (h : avail FeatureKey.hibernateMode psType = true) :
    mutatePS avail psType d FeatureKey.hibernateMode = some kHibernateMode := by
  unfold mutatePS
  rw [applyOverride_other _ _ _ _ _ (by decide),
    applyOverride_other _ _ _ _ _ (by decide),
    applyOverride_self _ _ _ _ h]

/-- When standby is available, the mutation sets it to `kStandby`. -/
theorem mutatePS_deepSleep (avail : FeatureKey → PSType → Bool)
    (psType : PSType) (d : PerSourcePrefs)
    (h : avail FeatureKey.deepSleepEnabled psType = true) :
    mutatePS avail psType d FeatureKey.deepSleepEnabled = some kStandby := by
  unfold mutatePS
  rw [applyOverride_other _ _ _ _ _ (by decide), applyOverride_self _ _ _ _ h]

/-- When wake on LAN is available, the mutation sets it to `kWakeOnLAN`. -/
theorem mutatePS_wakeOnLAN (avail : FeatureKey → PSType → Bool)
    (psType : PSType) (d : PerSourcePrefs)
    (h : avail FeatureKey.wakeOnLAN psType = true) :
    mutatePS avail psType d FeatureKey.wakeOnLAN = some kWakeOnLAN := by
  unfold mutatePS
  rw [applyOverride_self _ _ _ _ h]

/-- Keys other than the three override keys are never touched by the
mutation. -/
theorem mutatePS_other (avail : FeatureKey → PSType → Bool)
    (psType : PSType) (d : PerSourcePrefs) (k : FeatureKey)
    (h1 : k ≠ FeatureKey.hibernateMode)
    (h2 : k ≠ FeatureKey.deepSleepEnabled)
    (h3 : k ≠ FeatureKey.wakeOnLAN) :
    mutatePS avail psType d k = d k := by
  unfold mutatePS
  rw [applyOverride_other _ _ _ _ _ h3, applyOverride_other _ _ _ _ _ h2,
    applyOverride_other _ _ _ _ _ h1]

/-- A key whose availability predicate is false keeps its original entry. -/
theorem mutatePS_skip (avail : FeatureKey → PSType → Bool)
    (psType : PSType) (d : PerSourcePrefs) (k : FeatureKey)
    (h : avail k psType = false) :
    mutatePS avail psType d k = d k := by
  by_cases h1 : k = FeatureKey.hibernateMode
  · subst h1
    unfold mutatePS
    rw [applyOverride_other _ _ _ _ _ (by decide),
      applyOverride_other _ _ _ _ _ (by decide), applyOverride_skip _ _ _ _ h]
  by_cases h2 : k = FeatureKey.deepSleepEnabled
  · subst h2
    unfold mutatePS
    rw [applyOverride_other _ _ _ _ _ (by decide), applyOverride_skip _ _ _ _ h,
      applyOverride_other _ _ _ _ _ (by decide)]
  by_cases h3 : k = FeatureKey.wakeOnLAN
  · subst h3
    unfold mutatePS
    rw [applyOverride_skip _ _ _ _ h,
      applyOverride_other _ _ _ _ _ (by decide),
      applyOverride_other _ _ _ _ _ (by decide)]
  exact mutatePS_other avail psType d k h1 h2 h3

/-! ## C4, C5, C6: the mutation -/

/-- An environment like `wEnvOk` but whose final preference write is
rejected. -/
def wEnvReject : Env := { wEnvOk with setCustomOk := fun _ => false }

/-- Availability predicate reporting hibernate mode as unsupported and
everything else as supported. -/
def wAvailNoHib : FeatureKey → PSType → Bool
  | FeatureKey.hibernateMode, _ => false
  | _, _ => true

/-- An environment like `wEnvOk` in which hibernate mode is unavailable. -/
def wEnvNoHib : Env := { wEnvOk with featureAvailable := wAvailNoHib }

/-- C4: on a successful run of `PMAdaptPreferences`, the per-power-source
dictionary activated for the providing source is exactly the original one
with the three feature overrides applied: hibernate mode set to
`kHibernateMode` (on), standby set to `kStandby` (off) and wake on LAN set
to `kWakeOnLAN` (off), each only when its availability predicate holds, and
no other key is added or altered. -/
theorem adapt_overrides (env : Env) (st : PMState) (snap : Snapshot)
    (st1 : PMState) (tr1 : List WriteOp) (psType : PSType) (ap : ActivePrefs)
    (d : PerSourcePrefs)
    (hps : env.providingSource = some psType)
    (hap : env.activePMPreferences = some ap)
    (hd : ap psType = some d)
    (hA : PMAdaptPreferences env st =
      (kPMAdaptPreferencesSuccess, some snap, st1, tr1)) :
    st1.customPrefs psType = some (mutatePS env.featureAvailable psType d) ∧
    (env.featureAvailable FeatureKey.hibernateMode psType = true →
      mutatePS env.featureAvailable psType d FeatureKey.hibernateMode =
        some kHibernateMode) ∧
    (env.featureAvailable FeatureKey.deepSleepEnabled psType = true →
      mutatePS env.featureAvailable psType d FeatureKey.deepSleepEnabled =
        some kStandby) ∧
    (env.featureAvailable FeatureKey.wakeOnLAN psType = true →
      mutatePS env.featureAvailable psType d FeatureKey.wakeOnLAN =
        some kWakeOnLAN) ∧
    (∀ k : FeatureKey, k ≠ FeatureKey.hibernateMode →
      k ≠ FeatureKey.deepSleepEnabled → k ≠ FeatureKey.wakeOnLAN →
      mutatePS env.featureAvailable psType d k = d k) := by
  obtain ⟨psType', ap', d', -, -, -, hps', hap', hd', -, hst1, -⟩ :=
    adapt_success_inv env st snap st1 tr1 hA
  rw [hps] at hps'
  obtain rfl : psType = psType' := Option.some.inj hps'
  rw [hap] at hap'
  obtain rfl : ap = ap' := Option.some.inj hap'
  rw [hd] at hd'
  obtain rfl : d = d' := Option.some.inj hd'
  subst hst1
  refine ⟨Function.update_same _ _ _, fun h => mutatePS_hibernate _ _ _ h,
    fun h => mutatePS_deepSleep _ _ _ h, fun h => mutatePS_wakeOnLAN _ _ _ h,
    fun k h1 h2 h3 => mutatePS_other _ _ _ k h1 h2 h3⟩

/-- Witness for C4: the fixture run applies all three overrides and keeps
an unrelated key intact. -/
theorem adapt_overrides_witness :
    ((PMAdaptPreferences wEnvOk wSt).2.2.1).customPrefs PSType.ac =
      some (mutatePS wEnvOk.featureAvailable PSType.ac wPS0) ∧
    mutatePS wEnvOk.featureAvailable PSType.ac wPS0 FeatureKey.hibernateMode =
      some kHibernateMode ∧
    mutatePS wEnvOk.featureAvailable PSType.ac wPS0
        FeatureKey.deepSleepEnabled = some kStandby ∧
    mutatePS wEnvOk.featureAvailable PSType.ac wPS0 FeatureKey.wakeOnLAN =
      some kWakeOnLAN ∧
    mutatePS wEnvOk.featureAvailable PSType.ac wPS0 FeatureKey.otherA =
      wPS0 FeatureKey.otherA := by
  have h := adapt_overrides wEnvOk wSt wSnap
    (PMAdaptPreferences wEnvOk wSt).2.2.1
    (PMAdaptPreferences wEnvOk wSt).2.2.2
    PSType.ac wAP wPS0 rfl rfl rfl rfl
  exact ⟨h.1, h.2.1 rfl, h.2.2.1 rfl, h.2.2.2.1 rfl,
    h.2.2.2.2 FeatureKey.otherA (by decide) (by decide) (by decide)⟩

/-- C5: when control reaches the final activation step and the
custom-preferences write is rejected, `PMAdaptPreferences` returns the
custom-preferences error code, delivers no snapshot, leaves the preference
store unaltered, and the rejected call is the only write attempted. -/
theorem adapt_write_rejected (env : Env) (st : PMState) (psType : PSType)
    (ap : ActivePrefs) (d : PerSourcePrefs)
    (h1 : env.copyProfilesOk = true) (h2 : env.copyCustomOk = true)
    (h3 : env.psInfoOk = true)
    (hps : env.providingSource = some psType)
    (hap : env.activePMPreferences = some ap)
    (hd : ap psType = some d)
    (hw : env.setCustomOk (Function.update ap psType
      (some (mutatePS env.featureAvailable psType d))) = false) :
    PMAdaptPreferences env st =
      (kPMAdaptPreferencesErrorCustomPreferences, none, st,
       [WriteOp.setCustom (Function.update ap psType
         (some (mutatePS env.featureAvailable psType d)))]) := by
  unfold PMAdaptPreferences
  simp [h1, h2, h3, hps, hap, hd, hw]

/-- Witness for C5: the rejected fixture run. -/
theorem adapt_write_rejected_witness :
    PMAdaptPreferences wEnvReject wSt =
      (kPMAdaptPreferencesErrorCustomPreferences, none, wSt,
       [WriteOp.setCustom (Function.update wAP PSType.ac
         (some (mutatePS wEnvReject.featureAvailable PSType.ac wPS0)))]) :=
  adapt_write_rejected wEnvReject wSt PSType.ac wAP wPS0
    rfl rfl rfl rfl rfl rfl rfl

/-- C6: a feature override whose availability predicate is false for the
providing power source neither adds nor alters that feature's key: the
activated per-power-source dictionary's entry for the key equals the
original one. -/
theorem adapt_availability_skip (env : Env) (st : PMState) (snap : Snapshot)
    (st1 : PMState) (tr1 : List WriteOp) (psType : PSType) (ap : ActivePrefs)
    (d : PerSourcePrefs) (k : FeatureKey)
    (hps : env.providingSource = some psType)
    (hap : env.activePMPreferences = some ap)
    (hd : ap psType = some d)
    (hA : PMAdaptPreferences env st =
      (kPMAdaptPreferencesSuccess, some snap, st1, tr1))
    (hk : env.featureAvailable k psType = false) :
    st1.customPrefs psType = some (mutatePS env.featureAvailable psType d) ∧
    mutatePS env.featureAvailable psType d k = d k := by
  obtain ⟨psType', ap', d', -, -, -, hps', hap', hd', -, hst1, -⟩ :=
    adapt_success_inv env st snap st1 tr1 hA
  rw [hps] at hps'
  obtain rfl : psType = psType' := Option.some.inj hps'
  rw [hap] at hap'
  obtain rfl : ap = ap' := Option.some.inj hap'
  rw [hd] at hd'
  obtain rfl : d = d' := Option.some.inj hd'
  subst hst1
  exact ⟨Function.update_same _ _ _, mutatePS_skip _ _ _ k hk⟩

/-- Witness for C6: with hibernate mode unavailable, its key keeps the
original entry. -/
theorem adapt_availability_skip_witness :
    ((PMAdaptPreferences wEnvNoHib wSt).2.2.1).customPrefs PSType.ac =
      some (mutatePS wEnvNoHib.featureAvailable PSType.ac wPS0) ∧
    mutatePS wEnvNoHib.featureAvailable PSType.ac wPS0
      FeatureKey.hibernateMode = wPS0 FeatureKey.hibernateMode :=
  adapt_availability_skip wEnvNoHib wSt wSnap
    (PMAdaptPreferences wEnvNoHib wSt).2.2.1
    (PMAdaptPreferences wEnvNoHib wSt).2.2.2
    PSType.ac wAP wPS0 FeatureKey.hibernateMode rfl rfl rfl rfl rfl

/-! ## C7: the power notification callback -/

/-- C7: a wake-completed event stops the run loop (and acknowledges
nothing), a will-sleep event acknowledges the power change with the event's
supplied token (and leaves the loop running), and any other event type
changes nothing. -/
theorem callback_events (t : Nat) (arg : Int) (cs : CallbackState) :
    (IOPowerNotificationCallback kIOMessageSystemHasPoweredOn arg cs =
      { cs with loopRunning := false }) ∧
    (IOPowerNotificationCallback kIOMessageSystemWillSleep arg cs =
      { cs with acks := cs.acks ++ [arg] }) ∧
    (t ≠ kIOMessageSystemHasPoweredOn → t ≠ kIOMessageSystemWillSleep →
      IOPowerNotificationCallback t arg cs = cs) := by
  refine ⟨?_, ?_, fun h1 h2 => ?_⟩ <;> unfold IOPowerNotificationCallback
  · rw [if_pos rfl]
  · rw [if_neg (by decide), if_pos rfl]
  · rw [if_neg h1, if_neg h2]

/-- Witness for C7: an unrelated event type (0) leaves the state intact. -/
theorem callback_events_witness :
    IOPowerNotificationCallback 0 5 ⟨true, []⟩ = ⟨true, []⟩ :=
  (callback_events 0 5 ⟨true, []⟩).2.2 (by decide) (by decide)

/-! ## C9: restore ordering and short-circuit -/

/-- C9: `PMRestorePreferences` writes the custom preferences first and the
active profiles second; when the custom-preferences write is rejected it
returns the custom-preferences error code, the profile write is never
attempted (the trace holds only the rejected custom write), and the store —
in particular the mutated profile selection — is left as it was. -/
theorem restore_order_short_circuit (env : Env) (st : PMState)
    (snap : Snapshot) :
    (env.setCustomOk snap.customPMPreferences = false →
      PMRestorePreferences env st snap =
        (kPMRestorePreferencesErrorCustomPreferences, st,
         [WriteOp.setCustom snap.customPMPreferences])) ∧
    (env.setCustomOk snap.customPMPreferences = true →
      (PMRestorePreferences env st snap).2.2 =
        [WriteOp.setCustom snap.customPMPreferences,
         WriteOp.setProfiles snap.activePMProfiles]) := by
  constructor <;> intro h <;> unfold PMRestorePreferences
  · rw [if_neg (by simp [h])]
  · rw [if_pos h]
    split <;> rfl

/-- Witness for C9: the short-circuit evaluated on the rejecting fixture. -/
theorem restore_order_short_circuit_witness :
    PMRestorePreferences wEnvReject wSt wSnap =
      (kPMRestorePreferencesErrorCustomPreferences, wSt,
       [WriteOp.setCustom wSnap.customPMPreferences]) :=
  (restore_order_short_circuit wEnvReject wSt wSnap).1 rfl

/-! ## mainRun helper lemmas -/

/-- Function `CheckOSRelease` only ever produces the three outcome codes. -/
theorem checkOSRelease_cases (env : OSEnv) :
    CheckOSRelease env = kCheckOSReleaseSupported ∨
    CheckOSRelease env = kCheckOSReleaseUnsupported ∨
    CheckOSRelease env = kCheckOSReleaseError := by
  unfold CheckOSRelease
  cases hs : env.sizeProbeOk <;> cases hr : env.readOk <;> simp_all <;> omega

/-- Function `PMAdaptPreferences` only ever produces its five result codes. -/
theorem adapt_code_cases (env : Env) (st : PMState) :
    (PMAdaptPreferences env st).1 = kPMAdaptPreferencesSuccess ∨
    (PMAdaptPreferences env st).1 = kPMAdaptPreferencesErrorActiveProfiles ∨
    (PMAdaptPreferences env st).1 =
      kPMAdaptPreferencesErrorCustomPreferences ∨
    (PMAdaptPreferences env st).1 = kPMAdaptPreferencesErrorPowerSource ∨
    (PMAdaptPreferences env st).1 =
      kPMAdaptPreferencesErrorActivePreferences := by
  unfold PMAdaptPreferences
  repeat' split
  all_goals try simp
  all_goals (split <;> try simp)
  all_goals (split <;> simp)

/-- Function `PMRestorePreferences` only ever produces its three result codes. -/
theorem restore_code_cases (env : Env) (st : PMState) (snap : Snapshot) :
    (PMRestorePreferences env st snap).1 = kPMRestorePreferencesSuccess ∨
    (PMRestorePreferences env st snap).1 =
      kPMRestorePreferencesErrorCustomPreferences ∨
    (PMRestorePreferences env st snap).1 =
      kPMRestorePreferencesErrorActiveProfiles := by
  unfold PMRestorePreferences
  repeat' split
  all_goals simp

/-- The diagnostic for a non-success `CheckOSRelease` code is nonempty. -/
theorem osReleaseErrMsg_ne_nil (rc : Nat)
    (h : rc = kCheckOSReleaseUnsupported ∨ rc = kCheckOSReleaseError) :
    osReleaseErrMsg rc ≠ [] := by
  rcases h with rfl | rfl <;> simp [osReleaseErrMsg]

/-- The diagnostic for a non-success `PMAdaptPreferences` code is
nonempty. -/
theorem adaptErrMsg_ne_nil (rc : Nat)
    (h : rc = kPMAdaptPreferencesErrorActiveProfiles ∨
      rc = kPMAdaptPreferencesErrorCustomPreferences ∨
      rc = kPMAdaptPreferencesErrorPowerSource ∨
      rc = kPMAdaptPreferencesErrorActivePreferences) :
    adaptErrMsg rc ≠ [] := by
  rcases h with rfl | rfl | rfl | rfl <;> simp [adaptErrMsg]

/-- The diagnostic for a non-success `PMRestorePreferences` code is
nonempty. -/
theorem restoreErrMsg_ne_nil (rc : Nat)
    (h : rc = kPMRestorePreferencesErrorCustomPreferences ∨
      rc = kPMRestorePreferencesErrorActiveProfiles) :
    restoreErrMsg rc ≠ [] := by
  rcases h with rfl | rfl <;> simp [restoreErrMsg]

/-- Run of `main` when `CheckOSRelease` does not report Supported. -/
theorem mainRun_os_error (env : MainEnv) (st : PMState)
    (h : CheckOSRelease env.os ≠ kCheckOSReleaseSupported) :
    mainRun env st =
      { exitCode := kMainErrorOSRelease,
        stderr := osReleaseErrMsg (CheckOSRelease env.os),
        finalState := st, snapshotReleased := false, trace := [] } := by
  unfold mainRun
  rw [if_pos h]

/-- Run of `main` when the preference mutation fails. -/
theorem mainRun_adapt_error (env : MainEnv) (st : PMState) (rcA : Nat)
    (osnap : Option Snapshot) (st1 : PMState) (tr1 : List WriteOp)
    (h0 : CheckOSRelease env.os = kCheckOSReleaseSupported)
    (hP : PMAdaptPreferences env.pm st = (rcA, osnap, st1, tr1))
    (hne : rcA ≠ kPMAdaptPreferencesSuccess) :
    mainRun env st =
      { exitCode := kMainErrorPMAdaptPreferences, stderr := adaptErrMsg rcA,
        finalState := st1, snapshotReleased := false, trace := tr1 } := by
  unfold mainRun
  rw [if_neg (by simp [h0]), hP]
  simp [hne]

/-- Run of `main` when notification registration fails after a successful
mutation. -/
theorem mainRun_register_failure_eq (env : MainEnv) (st : PMState)
    (snap : Snapshot) (st1 : PMState) (tr1 : List WriteOp)
    (h0 : CheckOSRelease env.os = kCheckOSReleaseSupported)
    (hP : PMAdaptPreferences env.pm st =
      (kPMAdaptPreferencesSuccess, some snap, st1, tr1))
    (hreg : env.registerOk = false) :
    mainRun env st =
      { exitCode := kMainErrorIOPMrootDomain,
        stderr := ["hibernate: connecting to the IOPMrootDomain failed"],
        finalState := st1, snapshotReleased := true, trace := tr1 } := by
  unfold mainRun
  rw [if_neg (by simp [h0]), hP]
  simp [hreg]

/-- Run of `main` when mutation and registration succeed: the outcome is
decided by the restoration. -/
theorem mainRun_restore_eq (env : MainEnv) (st : PMState)
    (snap : Snapshot) (st1 : PMState) (tr1 : List WriteOp) (rcR : Nat)
    (st2 : PMState) (tr2 : List WriteOp)
    (h0 : CheckOSRelease env.os = kCheckOSReleaseSupported)
    (hP : PMAdaptPreferences env.pm st =
      (kPMAdaptPreferencesSuccess, some snap, st1, tr1))
    (hreg : env.registerOk = true)
    (hR : PMRestorePreferences env.pm st1 snap = (rcR, st2, tr2)) :
    mainRun env st =
      if rcR ≠ kPMRestorePreferencesSuccess then
        { exitCode := kMainErrorPMRestorePreferences,
          stderr := restoreErrMsg rcR, finalState := st2,
          snapshotReleased := true, trace := tr1 ++ tr2 }
      else
        { exitCode := kMainSuccess, stderr := [], finalState := st2,
          snapshotReleased := true, trace := tr1 ++ tr2 } := by
  unfold mainRun
  rw [if_neg (by simp [h0]), hP]
  simp [hreg, hR]

/-- A success code from `PMAdaptPreferences` always comes with the snapshot
of the original store. -/
theorem adapt_success_snap (env : Env) (st : PMState)
    (h : (PMAdaptPreferences env st).1 = kPMAdaptPreferencesSuccess) :
    (PMAdaptPreferences env st).2.1 =
      some ⟨st.activeProfiles, st.customPrefs⟩ := by
  unfold PMAdaptPreferences at h ⊢
  split at h <;> try simp_all
  split at h <;> try simp_all
  split at h <;> try simp_all
  split at h <;> try simp_all
  split at h <;> try simp_all
  split at h <;> try simp_all
  split at h <;> try simp_all
  split at h <;> try simp_all

/-! ## C3 and C8: main -/

/-- The run environment used by the success-path witnesses. -/
def wMainEnvOk : MainEnv := ⟨wOSEnv10, wEnvOk, true⟩

/-- The run environment whose notification registration fails. -/
def wMainEnvRegFail : MainEnv := ⟨wOSEnv10, wEnvOk, false⟩

/-- C3: `main` exits 0 on full success, 1 when the release is unsupported
or undetermined, 2 when notification registration fails, 3 when preference
mutation fails, 4 when preference restoration fails, and every non-zero
exit comes with a diagnostic line on the error stream. -/
theorem main_exit_code_contract (env : MainEnv) (st : PMState) :
    (CheckOSRelease env.os ≠ kCheckOSReleaseSupported →
      (mainRun env st).exitCode = kMainErrorOSRelease) ∧
    (CheckOSRelease env.os = kCheckOSReleaseSupported →
      (PMAdaptPreferences env.pm st).1 ≠ kPMAdaptPreferencesSuccess →
      (mainRun env st).exitCode = kMainErrorPMAdaptPreferences) ∧
    (∀ snap st1 tr1,
      CheckOSRelease env.os = kCheckOSReleaseSupported →
      PMAdaptPreferences env.pm st =
        (kPMAdaptPreferencesSuccess, some snap, st1, tr1) →
      (env.registerOk = false →
        (mainRun env st).exitCode = kMainErrorIOPMrootDomain) ∧
      (env.registerOk = true →
        ((PMRestorePreferences env.pm st1 snap).1 ≠
            kPMRestorePreferencesSuccess →
          (mainRun env st).exitCode = kMainErrorPMRestorePreferences) ∧
        ((PMRestorePreferences env.pm st1 snap).1 =
            kPMRestorePreferencesSuccess →
          (mainRun env st).exitCode = kMainSuccess))) ∧
    ((mainRun env st).exitCode ≠ kMainSuccess →
      (mainRun env st).stderr ≠ []) := by
  refine ⟨fun h => ?_, fun h0 hne => ?_, fun snap st1 tr1 h0 hP => ?_, ?_⟩
  · rw [mainRun_os_error env st h]
  · rw [mainRun_adapt_error env st (PMAdaptPreferences env.pm st).1
      (PMAdaptPreferences env.pm st).2.1 (PMAdaptPreferences env.pm st).2.2.1
      (PMAdaptPreferences env.pm st).2.2.2 h0 rfl hne]
  · refine ⟨fun hreg => ?_, fun hreg => ⟨fun hne => ?_, fun heq => ?_⟩⟩
    · rw [mainRun_register_failure_eq env st snap st1 tr1 h0 hP hreg]
    · rw [mainRun_restore_eq env st snap st1 tr1
        (PMRestorePreferences env.pm st1 snap).1
        (PMRestorePreferences env.pm st1 snap).2.1
        (PMRestorePreferences env.pm st1 snap).2.2 h0 hP hreg rfl,
        if_pos hne]
    · rw [mainRun_restore_eq env st snap st1 tr1
        (PMRestorePreferences env.pm st1 snap).1
        (PMRestorePreferences env.pm st1 snap).2.1
        (PMRestorePreferences env.pm st1 snap).2.2 h0 hP hreg rfl,
        if_neg (by simp [heq])]
  · intro hne
    rcases checkOSRelease_cases env.os with h0 | h0 | h0
    · rcases adapt_code_cases env.pm st with hA | hA | hA | hA | hA
      · have hsnap := adapt_success_snap env.pm st hA
        have hP : PMAdaptPreferences env.pm st =
            (kPMAdaptPreferencesSuccess,
             some ⟨st.activeProfiles, st.customPrefs⟩,
             (PMAdaptPreferences env.pm st).2.2.1,
             (PMAdaptPreferences env.pm st).2.2.2) := by
          rw [← hA, ← hsnap]
        cases hreg : env.registerOk
        · rw [mainRun_register_failure_eq env st _ _ _ h0 hP hreg]
          simp
        · rcases restore_code_cases env.pm
            (PMAdaptPreferences env.pm st).2.2.1
            ⟨st.activeProfiles, st.customPrefs⟩ with hR | hR | hR
          · exfalso
            apply hne
            rw [mainRun_restore_eq env st _ _ _
              (PMRestorePreferences env.pm (PMAdaptPreferences env.pm st).2.2.1
                ⟨st.activeProfiles, st.customPrefs⟩).1
              (PMRestorePreferences env.pm (PMAdaptPreferences env.pm st).2.2.1
                ⟨st.activeProfiles, st.customPrefs⟩).2.1
              (PMRestorePreferences env.pm (PMAdaptPreferences env.pm st).2.2.1
                ⟨st.activeProfiles, st.customPrefs⟩).2.2 h0 hP hreg rfl,
              if_neg (by simp [hR])]
          · rw [mainRun_restore_eq env st _ _ _
              (PMRestorePreferences env.pm (PMAdaptPreferences env.pm st).2.2.1
                ⟨st.activeProfiles, st.customPrefs⟩).1
              (PMRestorePreferences env.pm (PMAdaptPreferences env.pm st).2.2.1
                ⟨st.activeProfiles, st.customPrefs⟩).2.1
              (PMRestorePreferences env.pm (PMAdaptPreferences env.pm st).2.2.1
                ⟨st.activeProfiles, st.customPrefs⟩).2.2 h0 hP hreg rfl,
              if_pos (by simp [hR])]
            exact restoreErrMsg_ne_nil _ (Or.inl hR)
          · rw [mainRun_restore_eq env st _ _ _
              (PMRestorePreferences env.pm (PMAdaptPreferences env.pm st).2.2.1
                ⟨st.activeProfiles, st.customPrefs⟩).1
              (PMRestorePreferences env.pm (PMAdaptPreferences env.pm st).2.2.1
                ⟨st.activeProfiles, st.customPrefs⟩).2.1
              (PMRestorePreferences env.pm (PMAdaptPreferences env.pm st).2.2.1
                ⟨st.activeProfiles, st.customPrefs⟩).2.2 h0 hP hreg rfl,
              if_pos (by simp [hR])]
            exact restoreErrMsg_ne_nil _ (Or.inr hR)
      all_goals
        rw [mainRun_adapt_error env st (PMAdaptPreferences env.pm st).1
          (PMAdaptPreferences env.pm st).2.1
          (PMAdaptPreferences env.pm st).2.2.1
          (PMAdaptPreferences env.pm st).2.2.2 h0 rfl (by simp [hA])]
      · exact adaptErrMsg_ne_nil _ (by simp [hA])
      · exact adaptErrMsg_ne_nil _ (by simp [hA])
      · exact adaptErrMsg_ne_nil _ (by simp [hA])
      · exact adaptErrMsg_ne_nil _ (by simp [hA])
    · rw [mainRun_os_error env st (by simp [h0])]
      exact osReleaseErrMsg_ne_nil _ (Or.inl h0)
    · rw [mainRun_os_error env st (by simp [h0])]
      exact osReleaseErrMsg_ne_nil _ (Or.inr h0)

/-- Witness for C3: the all-success fixture run exits 0. -/
theorem main_exit_code_contract_witness :
    (mainRun wMainEnvOk wSt).exitCode = kMainSuccess := by
  have h := (main_exit_code_contract wMainEnvOk wSt).2.2.1 wSnap
    (PMAdaptPreferences wMainEnvOk.pm wSt).2.2.1
    (PMAdaptPreferences wMainEnvOk.pm wSt).2.2.2
    rfl rfl
  exact (h.2 rfl).2 rfl

/-- C8: when notification registration returns an empty session handle
after a successful mutation, `main` prints a diagnostic, releases the
snapshot, exits with code 2, and performs no restoration: the final store
is the mutated one and no further write appears in the trace. -/
theorem main_register_failure (env : MainEnv) (st : PMState)
    (snap : Snapshot) (st1 : PMState) (tr1 : List WriteOp)
    (h0 : CheckOSRelease env.os = kCheckOSReleaseSupported)
    (hP : PMAdaptPreferences env.pm st =
      (kPMAdaptPreferencesSuccess, some snap, st1, tr1))
    (hreg : env.registerOk = false) :
    (mainRun env st).exitCode = kMainErrorIOPMrootDomain ∧
    (mainRun env st).stderr =
      ["hibernate: connecting to the IOPMrootDomain failed"] ∧
    (mainRun env st).snapshotReleased = true ∧
    (mainRun env st).finalState = st1 ∧
    (mainRun env st).trace = tr1 := by
  rw [mainRun_register_failure_eq env st snap st1 tr1 h0 hP hreg]
  exact ⟨rfl, rfl, rfl, rfl, rfl⟩

/-- Witness for C8: the registration-failure fixture run. -/
theorem main_register_failure_witness :
    (mainRun wMainEnvRegFail wSt).exitCode = kMainErrorIOPMrootDomain ∧
    (mainRun wMainEnvRegFail wSt).stderr =
      ["hibernate: connecting to the IOPMrootDomain failed"] ∧
    (mainRun wMainEnvRegFail wSt).snapshotReleased = true ∧
    (mainRun wMainEnvRegFail wSt).finalState =
      (PMAdaptPreferences wMainEnvRegFail.pm wSt).2.2.1 ∧
    (mainRun wMainEnvRegFail wSt).trace =
      (PMAdaptPreferences wMainEnvRegFail.pm wSt).2.2.2 :=
  main_register_failure wMainEnvRegFail wSt wSnap
    (PMAdaptPreferences wMainEnvRegFail.pm wSt).2.2.1
    (PMAdaptPreferences wMainEnvRegFail.pm wSt).2.2.2
    rfl rfl rfl
